import Mathlib

/-
  Verification development for Sarkovos/OpenGLSimpleTriangle (src/Source.cpp).

  The program is a straight-line sequence of calls into two external C
  libraries (GLFW for windowing/input, OpenGL via GLAD for graphics),
  followed by a render loop and a teardown.  We give a shallow embedding as
  a trace semantics: an `Oracle` supplies every value the environment
  returns to the program (window-creation success, GLAD-loading success,
  shader compile/link statuses and their logs, and the per-frame keyboard
  and window-event state), and `mainRun` computes the exact list of library
  calls the program performs together with its exit code.  The render loop
  may not terminate, so `mainRun` takes a fuel bound on loop iterations and
  returns `none` when the bound is hit before the close flag is seen.
-/

namespace GLTriangle

/- GLFW enumeration constants, with the values from GLFW/glfw3.h. -/

def GLFW_CONTEXT_VERSION_MAJOR : Nat := 0x00022002

def GLFW_CONTEXT_VERSION_MINOR : Nat := 0x00022003

def GLFW_OPENGL_PROFILE : Nat := 0x00022008

def GLFW_OPENGL_CORE_PROFILE : Nat := 0x00032001

def GLFW_KEY_ESCAPE : Nat := 256

def GLFW_PRESS : Nat := 1

/- OpenGL enumeration constants, with the values from glad/glad.h. -/

def GL_VERTEX_SHADER : Nat := 0x8B31

def GL_FRAGMENT_SHADER : Nat := 0x8B30

def GL_COMPILE_STATUS : Nat := 0x8B81

def GL_LINK_STATUS : Nat := 0x8B82

def GL_ARRAY_BUFFER : Nat := 0x8892

def GL_STATIC_DRAW : Nat := 0x88E4

def GL_FLOAT : Nat := 0x1406

def GL_TRIANGLES : Nat := 0x0004

def GL_COLOR_BUFFER_BIT : Nat := 0x00004000

/-- One observable action of the program: a call into the windowing or
    graphics library, or a line printed to standard output.  Float
    arguments of the C API are carried as exact rationals (they are only
    ever literal constants passed through, never computed with). -/
inductive Event
  | glfwInit
  | windowHint (target val : Nat)
  | createWindow (width height : Nat) (title : String)
  | printLine (s : String)
  | glfwTerminate
  | makeContextCurrent
  | setFramebufferSizeCallback
  | gladLoad
  | createShader (ty id : Nat)
  | shaderSource (id count : Nat) (src : String)
  | compileShader (id : Nat)
  | getShaderiv (id pname : Nat)
  | getShaderInfoLog (id : Nat)
  | createProgram (id : Nat)
  | attachShader (prog sh : Nat)
  | linkProgram (id : Nat)
  | getProgramiv (id pname : Nat)
  | getProgramInfoLog (id : Nat)
  | useProgram (id : Nat)
  | deleteShader (id : Nat)
  | genBuffers (n id : Nat)
  | bindBuffer (target id : Nat)
  | bufferData (target size usage : Nat)
  | genVertexArrays (n id : Nat)
  | bindVertexArray (id : Nat)
  | vertexAttribPointer (index size ty : Nat) (normalized : Bool) (stride offset : Nat)
  | enableVertexAttribArray (index : Nat)
  | getKey (key : Nat)
  | setWindowShouldClose (b : Bool)
  | clearColor (r g b a : Rat)
  | glClear (mask : Nat)
  | drawArrays (mode first count : Nat)
  | swapBuffers
  | pollEvents
  | viewport (x y w h : Int)
  | deleteVertexArrays (n id : Nat)
  | deleteBuffers (n id : Nat)
  | deleteProgram (id : Nat)
deriving DecidableEq

/-- The vertex shader source string embedded in Source.cpp
    (up to its explicit NUL terminator). -/
def vertexShaderSource : String :=
  "#version 330 core\nlayout (location = 0) in vec3 aPos;\nvoid main()\n\x7b\n   gl_Position = vec4(aPos.x, aPos.y, aPos.z, 1.0);\n\x7d"

/-- The fragment shader source string embedded in Source.cpp
    (up to its explicit NUL terminator). -/
def fragmentShaderSource : String :=
  "#version 330 core\nout vec4 FragColor;\nvoid main()\n\x7b\n   FragColor = vec4(1.0f, 0.5f, 0.2f, 1.0f);\n\x7d\n"

/-- The settings constants of Source.cpp. -/
def SCR_WIDTH : Nat := 800

def SCR_HEIGHT : Nat := 600

/-- The nine floats of the hardcoded triangle in main. -/
def vertices : List Rat :=
  [-0.5, -0.5, 0.0,
    0.5, -0.5, 0.0,
    0.0,  0.5, 0.0]

/-- framebuffer_size_callback from Source.cpp: its whole body is the single
    viewport call forwarding the new size with origin (0, 0). -/
def framebuffer_size_callback (width height : Int) : List Event :=
  [Event.viewport 0 0 width height]

/-- processInput from Source.cpp.  `escapeDown` is the environment fact of
    whether glfwGetKey returns GLFW_PRESS for the escape key; `closeFlag`
    is the close flag of the window before the call.  Returns the events
    performed and the close flag after the call: the flag is set to true
    when escape is pressed and left untouched otherwise. -/
def processInput (escapeDown : Bool) (closeFlag : Bool) : List Event × Bool :=
  if escapeDown then
    ([Event.getKey GLFW_KEY_ESCAPE, Event.setWindowShouldClose true], true)
  else
    ([Event.getKey GLFW_KEY_ESCAPE], closeFlag)

/-- Everything the external environment decides during a run: whether each
    fallible library call succeeds, the error logs the driver would report,
    and, per render-loop iteration, whether the escape key is down during
    processInput and whether the event poll itself requests a close (for
    example the user clicking the window's close button). -/
structure Oracle where
  glfwInitOk : Bool
  windowOk : Bool
  gladOk : Bool
  vcompileOk : Bool
  fcompileOk : Bool
  linkOk : Bool
  vlog : String
  flog : String
  plog : String
  escape : Nat → Bool
  closeEvent : Nat → Bool

/-- The window's close flag at the top of render-loop iteration `i`
    (glfwCreateWindow starts it unset).  Iteration `i` raises it when the
    escape key is pressed during its processInput or when its event poll
    requests a close; nothing ever clears it. -/
def closeFlagAt (o : Oracle) : Nat → Bool
  | 0 => false
  | i + 1 => closeFlagAt o i || o.escape i || o.closeEvent i

/-- The events of one full render-loop iteration `i` of main: process
    input, set the clear color and clear, select the program, bind the
    vertex array, draw the triangle, swap buffers, poll events.  `prog` and
    `vao` are the handles main obtained at startup. -/
def iterTrace (o : Oracle) (prog vao : Nat) (i : Nat) : List Event :=
  (processInput (o.escape i) (closeFlagAt o i)).1 ++
  [Event.clearColor 0.2 0.3 0.3 1.0,
   Event.glClear GL_COLOR_BUFFER_BIT,
   Event.useProgram prog,
   Event.bindVertexArray vao,
   Event.drawArrays GL_TRIANGLES 0 3,
   Event.swapBuffers,
   Event.pollEvents]

/-- The render loop of main, starting at iteration `i` with at most `fuel`
    further iterations allowed: while the close flag is unset, run one full
    iteration and continue.  Returns the remaining loop trace, or `none`
    when the fuel runs out before the flag is seen set. -/
def runLoop (o : Oracle) (prog vao : Nat) : Nat → Nat → Option (List Event)
  | 0, i => if closeFlagAt o i then some [] else none
  | fuel + 1, i =>
    if closeFlagAt o i then some []
    else (runLoop o prog vao fuel (i + 1)).map (fun t => iterTrace o prog vao i ++ t)

/-- The concatenated traces of iterations `i, i+1, ..., i+k-1`. -/
def itersFrom (o : Oracle) (prog vao : Nat) : Nat → Nat → List Event
  | _, 0 => []
  | i, k + 1 => iterTrace o prog vao i ++ itersFrom o prog vao (i + 1) k

/-- The startup calls of main up to and including glfwCreateWindow:
    glfwInit, the three window hints, and window creation with the literal
    parameters of Source.cpp. -/
def bootTrace : List Event :=
  [Event.glfwInit,
   Event.windowHint GLFW_CONTEXT_VERSION_MAJOR 3,
   Event.windowHint GLFW_CONTEXT_VERSION_MINOR 3,
   Event.windowHint GLFW_OPENGL_PROFILE GLFW_OPENGL_CORE_PROFILE,
   Event.createWindow 800 600 "LearnOpenGL"]

/-- The shader compile/link section of main.  The driver hands out handles
    sequentially: vertex shader 1, fragment shader 2, program 3.  On a
    failed compile or link the info log is fetched and printed and
    execution continues; the two shader objects are deleted right after
    linking, before any buffer setup or rendering. -/
def shaderTrace (o : Oracle) : List Event :=
  [Event.createShader GL_VERTEX_SHADER 1,
   Event.shaderSource 1 1 vertexShaderSource,
   Event.compileShader 1,
   Event.getShaderiv 1 GL_COMPILE_STATUS] ++
  (if o.vcompileOk then [] else
    [Event.getShaderInfoLog 1,
     Event.printLine ("ERROR::SHADER::VERTEX::COMPILATION_FAILED\n" ++ o.vlog)]) ++
  [Event.createShader GL_FRAGMENT_SHADER 2,
   Event.shaderSource 2 1 fragmentShaderSource,
   Event.compileShader 2,
   Event.getShaderiv 2 GL_COMPILE_STATUS] ++
  (if o.fcompileOk then [] else
    [Event.getShaderInfoLog 2,
     Event.printLine ("ERROR::SHADER::FRAGMENT::COMPILATION_FAILED\n" ++ o.flog)]) ++
  [Event.createProgram 3,
   Event.attachShader 3 1,
   Event.attachShader 3 2,
   Event.linkProgram 3,
   Event.getProgramiv 3 GL_LINK_STATUS] ++
  (if o.linkOk then [] else
    [Event.getProgramInfoLog 3,
     Event.printLine ("ERROR::SHADER::PROGRAM::LINKING_FAILED\n" ++ o.plog)]) ++
  [Event.useProgram 3,
   Event.deleteShader 1,
   Event.deleteShader 2]

/-- The vertex buffer and vertex array setup of main.  The driver hands
    out the buffer handle 4 and the vertex-array handle 5; sizeof(vertices)
    is 4 bytes per float. -/
def bufferTrace : List Event :=
  [Event.genBuffers 1 4,
   Event.bindBuffer GL_ARRAY_BUFFER 4,
   Event.bufferData GL_ARRAY_BUFFER (4 * vertices.length) GL_STATIC_DRAW,
   Event.genVertexArrays 1 5,
   Event.bindVertexArray 5,
   Event.vertexAttribPointer 0 3 GL_FLOAT false 12 0,
   Event.enableVertexAttribArray 0,
   Event.bindBuffer GL_ARRAY_BUFFER 0,
   Event.bindVertexArray 0]

/-- The teardown calls after the render loop exits. -/
def teardownTrace : List Event :=
  [Event.deleteVertexArrays 1 5,
   Event.deleteBuffers 1 4,
   Event.deleteProgram 3,
   Event.glfwTerminate]

/-- Everything main does before the render loop on the path where both
    window creation and GLAD loading succeed. -/
def preLoopTrace (o : Oracle) : List Event :=
  bootTrace ++
  [Event.makeContextCurrent, Event.setFramebufferSizeCallback, Event.gladLoad] ++
  shaderTrace o ++ bufferTrace

/-- The trace of the run on which glfwCreateWindow returns NULL. -/
def winFailTrace : List Event :=
  bootTrace ++ [Event.printLine "Failed to create GLFW window", Event.glfwTerminate]

/-- The trace of the run on which gladLoadGLLoader fails. -/
def gladFailTrace : List Event :=
  bootTrace ++
  [Event.makeContextCurrent, Event.setFramebufferSizeCallback, Event.gladLoad,
   Event.printLine "Failed to initialize GLAD"]

/-- The whole of main as a trace: the two checked early exits each print
    their diagnostic and return -1 (only the window-creation path calls
    glfwTerminate first); otherwise shader and buffer setup run, then the
    render loop, then teardown, returning 0.  `none` means the fuel bound
    on loop iterations was exhausted with the close flag still unset. -/
def mainRun (o : Oracle) (fuel : Nat) : Option (List Event × Int) :=
  if o.windowOk = false then
    some (winFailTrace, -1)
  else if o.gladOk = false then
    some (gladFailTrace, -1)
  else
    (runLoop o 3 5 fuel 0).map (fun lt => (preLoopTrace o ++ lt ++ teardownTrace, 0))

/-- The loop exits exactly at iteration `n`: the close flag is set at the
    top of iteration `n` and was unset at the top of every earlier one. -/
def exitAt (o : Oracle) (n : Nat) : Prop :=
  closeFlagAt o n = true ∧ ∀ j, j < n → closeFlagAt o j = false

/- Helper lemmas shared by the claim theorems. -/

/-- Once the close flag is set it stays set. -/
lemma closeFlagAt_true_add (o : Oracle) (j : Nat) (h : closeFlagAt o j = true) :
    ∀ k, closeFlagAt o (j + k) = true := by
  intro k
  induction k with
  | zero => exact h
  | succ k ih => simp [closeFlagAt, ih]

/-- If the close flag is unset at iteration `i`, it was unset at every
    earlier iteration. -/
lemma closeFlagAt_false_of_le (o : Oracle) {i j : Nat} (hji : j ≤ i)
    (h : closeFlagAt o i = false) : closeFlagAt o j = false := by
  by_contra hj
  rw [Bool.not_eq_false] at hj
  have := closeFlagAt_true_add o j hj (i - j)
  rw [Nat.add_sub_cancel' hji] at this
  rw [this] at h
  exact Bool.true_eq_false.mp h

/-- A render-loop iteration always performs at least one call. -/
lemma iterTrace_ne_nil (o : Oracle) (prog vao i : Nat) :
    iterTrace o prog vao i ≠ [] := by
  cases h : o.escape i <;> simp [iterTrace, processInput, h]

/-- The loop body decomposes into the input step followed by the fixed
    render tail. -/
lemma iterTrace_eq (o : Oracle) (prog vao i : Nat) :
    iterTrace o prog vao i =
      (if o.escape i then
        [Event.getKey GLFW_KEY_ESCAPE, Event.setWindowShouldClose true]
       else [Event.getKey GLFW_KEY_ESCAPE]) ++
      [Event.clearColor 0.2 0.3 0.3 1.0,
       Event.glClear GL_COLOR_BUFFER_BIT,
       Event.useProgram prog,
       Event.bindVertexArray vao,
       Event.drawArrays GL_TRIANGLES 0 3,
       Event.swapBuffers,
       Event.pollEvents] := by
  cases h : o.escape i <;> simp [iterTrace, processInput, h]

/-- With the close flag unset on `[i, i+k)`, set at `i+k`, and at least
    `k` iterations of fuel, the loop starting at `i` runs exactly the
    iterations `i, ..., i+k-1` and exits. -/
lemma runLoop_seg (o : Oracle) (prog vao : Nat) :
    ∀ (k i fuel : Nat),
      (∀ j, i ≤ j → j < i + k → closeFlagAt o j = false) →
      closeFlagAt o (i + k) = true → k ≤ fuel →
      runLoop o prog vao fuel i = some (itersFrom o prog vao i k) := by
  intro k
  induction k with
  | zero =>
    intro i fuel _ hset _
    rw [Nat.add_zero] at hset
    cases fuel <;> simp [runLoop, hset, itersFrom]
  | succ k ih =>
    intro i fuel hfalse hset hfuel
    obtain ⟨f, rfl⟩ : ∃ f, fuel = f + 1 := by
      cases fuel with
      | zero => omega
      | succ f => exact ⟨f, rfl⟩
    have hi : closeFlagAt o i = false :=
      hfalse i le_rfl (by omega)
    have hrec := ih (i + 1) f
      (fun j hj1 hj2 => hfalse j (by omega) (by omega))
      (by rw [show i + 1 + k = i + (k + 1) by omega]; exact hset)
      (by omega)
    simp [runLoop, hi, hrec, itersFrom]

/-- With the loop exiting at iteration `n` and fuel at least `n`, the loop
    trace from the start is exactly iterations `0, ..., n-1`. -/
lemma runLoop_of_exitAt (o : Oracle) (prog vao : Nat) {n fuel : Nat}
    (hx : exitAt o n) (hf : n ≤ fuel) :
    runLoop o prog vao fuel 0 = some (itersFrom o prog vao 0 n) := by
  refine runLoop_seg o prog vao n 0 fuel (fun j _ hj => hx.2 j ?_) ?_ hf
  · omega
  · rw [Nat.zero_add]; exact hx.1

/-- On the path where window creation and GLAD loading succeed and the
    loop exits at iteration `n` within the fuel bound, main performs the
    setup, then iterations `0, ..., n-1`, then the teardown, and
    returns 0. -/
lemma mainRun_success (o : Oracle) (n fuel : Nat)
    (hw : o.windowOk = true) (hg : o.gladOk = true)
    (hx : exitAt o n) (hf : n ≤ fuel) :
    mainRun o fuel =
      some (preLoopTrace o ++ itersFrom o 3 5 0 n ++ teardownTrace, 0) := by
  simp [mainRun, hw, hg, runLoop_of_exitAt o 3 5 hx hf]

/- Concrete oracles used by the witnesses and the counterexample. -/

/-- An environment where every fallible call succeeds and the escape key
    is held down from the first frame on. -/
def oAllOk : Oracle :=
  { glfwInitOk := true, windowOk := true, gladOk := true,
    vcompileOk := true, fcompileOk := true, linkOk := true,
    vlog := "", flog := "", plog := "",
    escape := fun _ => true, closeEvent := fun _ => false }

/-- An environment where glfwCreateWindow returns NULL. -/
def oWinFail : Oracle := { oAllOk with windowOk := false }

/-- An environment where gladLoadGLLoader fails. -/
def oGladFail : Oracle := { oAllOk with gladOk := false }

/-- An environment where both shader compilations and the link report
    failure. -/
def oCompFail : Oracle :=
  { oAllOk with
    vcompileOk := false, fcompileOk := false, linkOk := false,
    vlog := "vlog", flog := "flog", plog := "plog" }

lemma exitAt_oAllOk : exitAt oAllOk 1 := by
  constructor
  · decide
  · intro j hj
    interval_cases j
    decide

lemma exitAt_oCompFail : exitAt oCompFail 1 := by
  constructor
  · decide
  · intro j hj
    interval_cases j
    decide

/- Event-kind predicates used to talk about whole classes of calls. -/

/-- The event is a glCompileShader call. -/
def isCompileEvent : Event → Bool
  | Event.compileShader _ => true
  | _ => false

/-- The event is a glDrawArrays call. -/
def isDrawEvent : Event → Bool
  | Event.drawArrays _ _ _ => true
  | _ => false

/-- The event is a glDeleteShader call. -/
def isDeleteShaderEvent : Event → Bool
  | Event.deleteShader _ => true
  | _ => false

/-- The event creates a driver-owned handle (glCreateShader,
    glCreateProgram, glGenBuffers, glGenVertexArrays). -/
def isCreateEvent : Event → Bool
  | Event.createShader _ _ => true
  | Event.createProgram _ => true
  | Event.genBuffers _ _ => true
  | Event.genVertexArrays _ _ => true
  | _ => false

/-- The event destroys a driver-owned handle (glDeleteShader,
    glDeleteProgram, glDeleteBuffers, glDeleteVertexArrays). -/
def isDeleteEvent : Event → Bool
  | Event.deleteShader _ => true
  | Event.deleteProgram _ => true
  | Event.deleteBuffers _ _ => true
  | Event.deleteVertexArrays _ _ => true
  | _ => false

/-- Every trace of main starts with glfwInit, the three hints, and the
    glfwCreateWindow call, whatever the environment does. -/
lemma mainRun_boot_prefix (o : Oracle) (fuel : Nat) (tr : List Event) (c : Int)
    (h : mainRun o fuel = some (tr, c)) : ∃ rest, tr = bootTrace ++ rest := by
  unfold mainRun at h
  split at h
  · simp only [Option.some.injEq, Prod.mk.injEq] at h
    exact ⟨[Event.printLine "Failed to create GLFW window", Event.glfwTerminate],
      h.1.symm⟩
  · split at h
    · simp only [Option.some.injEq, Prod.mk.injEq] at h
      exact ⟨[Event.makeContextCurrent, Event.setFramebufferSizeCallback,
        Event.gladLoad, Event.printLine "Failed to initialize GLAD"], h.1.symm⟩
    · rw [Option.map_eq_some'] at h
      obtain ⟨lt, _, hf⟩ := h
      obtain ⟨h1, _⟩ := Prod.mk.injEq _ _ _ _ ▸ hf
      refine ⟨[Event.makeContextCurrent, Event.setFramebufferSizeCallback,
        Event.gladLoad] ++ shaderTrace o ++ bufferTrace ++ lt ++ teardownTrace, ?_⟩
      rw [← h1]
      simp [preLoopTrace, List.append_assoc]

/-- The event is a glCreateShader call. -/
def isCreateShaderEvent : Event → Bool
  | Event.createShader _ _ => true
  | _ => false

/-- The event is a glCreateProgram call. -/
def isCreateProgramEvent : Event → Bool
  | Event.createProgram _ => true
  | _ => false

/-- The event is a glGenBuffers call. -/
def isGenBuffersEvent : Event → Bool
  | Event.genBuffers _ _ => true
  | _ => false

/-- The event is a glGenVertexArrays call. -/
def isGenVertexArraysEvent : Event → Bool
  | Event.genVertexArrays _ _ => true
  | _ => false

/-- The event is a glDeleteProgram call. -/
def isDeleteProgramEvent : Event → Bool
  | Event.deleteProgram _ => true
  | _ => false

/-- The event is a glDeleteBuffers call. -/
def isDeleteBuffersEvent : Event → Bool
  | Event.deleteBuffers _ _ => true
  | _ => false

/-- The event is a glDeleteVertexArrays call. -/
def isDeleteVertexArraysEvent : Event → Bool
  | Event.deleteVertexArrays _ _ => true
  | _ => false

/-- Handle creations and destructions in the pre-loop part of the run:
    two shader creations and two shader deletions, one program creation,
    one buffer generation and one vertex-array generation, and no deletion
    of the program, the buffer or the vertex array — whatever the compile
    and link statuses are. -/
lemma preLoop_counts (o : Oracle) :
    (preLoopTrace o).countP isCreateShaderEvent = 2 ∧
    (preLoopTrace o).countP isDeleteShaderEvent = 2 ∧
    (preLoopTrace o).countP isCreateProgramEvent = 1 ∧
    (preLoopTrace o).countP isDeleteProgramEvent = 0 ∧
    (preLoopTrace o).countP isGenBuffersEvent = 1 ∧
    (preLoopTrace o).countP isDeleteBuffersEvent = 0 ∧
    (preLoopTrace o).countP isGenVertexArraysEvent = 1 ∧
    (preLoopTrace o).countP isDeleteVertexArraysEvent = 0 := by
  cases hv : o.vcompileOk <;> cases hfc : o.fcompileOk <;> cases hl : o.linkOk <;>
    simp [preLoopTrace, shaderTrace, bootTrace, bufferTrace, hv, hfc, hl,
      List.countP_cons, List.countP_append, isCreateShaderEvent,
      isDeleteShaderEvent, isCreateProgramEvent, isDeleteProgramEvent,
      isGenBuffersEvent, isDeleteBuffersEvent, isGenVertexArraysEvent,
      isDeleteVertexArraysEvent]

/-- No render-loop iteration creates or destroys any handle. -/
lemma iterTrace_counts (o : Oracle) (prog vao i : Nat) :
    (iterTrace o prog vao i).countP isCreateEvent = 0 ∧
    (iterTrace o prog vao i).countP isDeleteEvent = 0 := by
  cases h : o.escape i <;>
    simp [iterTrace, processInput, h, List.countP_cons, List.countP_append,
      isCreateEvent, isDeleteEvent]

/-- No sequence of render-loop iterations creates or destroys any
    handle. -/
lemma itersFrom_counts (o : Oracle) (prog vao : Nat) :
    ∀ k i, (itersFrom o prog vao i k).countP isCreateEvent = 0 ∧
      (itersFrom o prog vao i k).countP isDeleteEvent = 0 := by
  intro k
  induction k with
  | zero => intro i; simp [itersFrom]
  | succ k ih =>
    intro i
    have h1 := iterTrace_counts o prog vao i
    have h2 := ih (i + 1)
    simp [itersFrom, List.countP_append, h1.1, h1.2, h2.1, h2.2]

/-- Every render-loop iteration uses the program handle 3 and the
    vertex-array handle 5 obtained at startup. -/
lemma iterTrace_uses (o : Oracle) (i : Nat) :
    Event.useProgram 3 ∈ iterTrace o 3 5 i ∧
    Event.bindVertexArray 5 ∈ iterTrace o 3 5 i := by
  cases h : o.escape i <;> simp [iterTrace, processInput, h]

/- The claim theorems. -/

/-- C1: on a run where setup succeeds and the loop exits at iteration `n`,
    the trace is the setup followed by the `n` loop iterations followed by
    the teardown, and every iteration is exactly: poll the escape key (and
    when pressed request close), set the clear color to the fixed constant
    (0.2, 0.3, 0.3, 1.0) and clear the color buffer, select the linked
    program, bind the vertex array, draw three vertices as one triangle,
    swap buffers, poll events — the clear color is the same constant on
    every iteration. -/
theorem spec_c1 (o : Oracle) (n fuel : Nat)
    (hw : o.windowOk = true) (hg : o.gladOk = true)
    (hx : exitAt o n) (hf : n ≤ fuel) :
    mainRun o fuel =
      some (preLoopTrace o ++ itersFrom o 3 5 0 n ++ teardownTrace, 0) ∧
    ∀ i, i < n → iterTrace o 3 5 i =
      (if o.escape i then
        [Event.getKey GLFW_KEY_ESCAPE, Event.setWindowShouldClose true]
       else [Event.getKey GLFW_KEY_ESCAPE]) ++
      [Event.clearColor 0.2 0.3 0.3 1.0,
       Event.glClear GL_COLOR_BUFFER_BIT,
       Event.useProgram 3,
       Event.bindVertexArray 5,
       Event.drawArrays GL_TRIANGLES 0 3,
       Event.swapBuffers,
       Event.pollEvents] :=
  ⟨mainRun_success o n fuel hw hg hx hf, fun i _ => iterTrace_eq o 3 5 i⟩

/-- C1 witness: the all-success environment with escape held from frame 0
    runs one iteration and exits. -/
theorem spec_c1_witness :
    mainRun oAllOk 1 =
      some (preLoopTrace oAllOk ++ itersFrom oAllOk 3 5 0 1 ++ teardownTrace, 0) ∧
    ∀ i, i < 1 → iterTrace oAllOk 3 5 i =
      (if oAllOk.escape i then
        [Event.getKey GLFW_KEY_ESCAPE, Event.setWindowShouldClose true]
       else [Event.getKey GLFW_KEY_ESCAPE]) ++
      [Event.clearColor 0.2 0.3 0.3 1.0,
       Event.glClear GL_COLOR_BUFFER_BIT,
       Event.useProgram 3,
       Event.bindVertexArray 5,
       Event.drawArrays GL_TRIANGLES 0 3,
       Event.swapBuffers,
       Event.pollEvents] :=
  spec_c1 oAllOk 1 1 rfl rfl exitAt_oAllOk le_rfl

/-- C3: when a shader compilation or the link reports failure, the
    corresponding error log is printed, yet main continues: the buffer
    setup call is still performed, the render loop still runs, and the
    program exits normally with code 0. -/
theorem spec_c3 (o : Oracle) (n fuel : Nat)
    (hw : o.windowOk = true) (hg : o.gladOk = true)
    (hx : exitAt o n) (hf : n ≤ fuel)
    (_hfail : o.vcompileOk = false ∨ o.fcompileOk = false ∨ o.linkOk = false) :
    ∃ tr, mainRun o fuel = some (tr, 0) ∧
      (o.vcompileOk = false →
        Event.printLine ("ERROR::SHADER::VERTEX::COMPILATION_FAILED\n" ++ o.vlog) ∈ tr) ∧
      (o.fcompileOk = false →
        Event.printLine ("ERROR::SHADER::FRAGMENT::COMPILATION_FAILED\n" ++ o.flog) ∈ tr) ∧
      (o.linkOk = false →
        Event.printLine ("ERROR::SHADER::PROGRAM::LINKING_FAILED\n" ++ o.plog) ∈ tr) ∧
      Event.genBuffers 1 4 ∈ tr ∧ Event.glfwTerminate ∈ tr := by
  refine ⟨_, mainRun_success o n fuel hw hg hx hf, ?_, ?_, ?_, ?_, ?_⟩
  · intro hv
    simp [preLoopTrace, shaderTrace, hv]
  · intro hfc
    simp [preLoopTrace, shaderTrace, hfc]
  · intro hl
    simp [preLoopTrace, shaderTrace, hl]
  · simp [preLoopTrace, bufferTrace]
  · simp [teardownTrace]

/-- C3 witness: an environment where both compiles and the link fail
    still reaches buffer setup, the loop, and teardown. -/
theorem spec_c3_witness :
    ∃ tr, mainRun oCompFail 1 = some (tr, 0) ∧
      (oCompFail.vcompileOk = false →
        Event.printLine ("ERROR::SHADER::VERTEX::COMPILATION_FAILED\n" ++ oCompFail.vlog) ∈ tr) ∧
      (oCompFail.fcompileOk = false →
        Event.printLine ("ERROR::SHADER::FRAGMENT::COMPILATION_FAILED\n" ++ oCompFail.flog) ∈ tr) ∧
      (oCompFail.linkOk = false →
        Event.printLine ("ERROR::SHADER::PROGRAM::LINKING_FAILED\n" ++ oCompFail.plog) ∈ tr) ∧
      Event.genBuffers 1 4 ∈ tr ∧ Event.glfwTerminate ∈ tr :=
  spec_c3 oCompFail 1 1 rfl rfl exitAt_oCompFail le_rfl (Or.inl rfl)

/-- C4 counterexample: on a concrete successful run with one rendered
    frame, the trace contains a draw call and two shader-handle deletions,
    and the first shader deletion occurs strictly before the draw — so it
    is false that every driver-owned handle is destroyed after the render
    loop exits: the shader objects are deleted during startup. -/
theorem spec_c4_counterexample :
    ∃ tr, mainRun oAllOk 1 = some (tr, 0) ∧
      tr.countP isDrawEvent = 1 ∧
      tr.countP isDeleteShaderEvent = 2 ∧
      tr.findIdx isDeleteShaderEvent < tr.findIdx isDrawEvent := by
  refine ⟨preLoopTrace oAllOk ++ itersFrom oAllOk 3 5 0 1 ++ teardownTrace,
    mainRun_success oAllOk 1 1 rfl rfl exitAt_oAllOk le_rfl, ?_, ?_, ?_⟩
  · decide
  · decide
  · decide

/-- C4 as amended: the program, buffer and vertex-array handles are each
    created exactly once at startup, used unmodified (handles 3 and 5) on
    every frame, and destroyed exactly once after the loop exits; the two
    shader handles are created exactly once and destroyed exactly once,
    but during startup, before the render loop, and no loop iteration
    creates or destroys any handle. -/
theorem spec_c4_amended (o : Oracle) (n fuel : Nat)
    (hw : o.windowOk = true) (hg : o.gladOk = true)
    (hx : exitAt o n) (hf : n ≤ fuel) :
    mainRun o fuel =
      some (preLoopTrace o ++ itersFrom o 3 5 0 n ++ teardownTrace, 0) ∧
    (preLoopTrace o).countP isCreateShaderEvent = 2 ∧
    (preLoopTrace o).countP isDeleteShaderEvent = 2 ∧
    (preLoopTrace o).countP isCreateProgramEvent = 1 ∧
    (preLoopTrace o).countP isDeleteProgramEvent = 0 ∧
    (preLoopTrace o).countP isGenBuffersEvent = 1 ∧
    (preLoopTrace o).countP isDeleteBuffersEvent = 0 ∧
    (preLoopTrace o).countP isGenVertexArraysEvent = 1 ∧
    (preLoopTrace o).countP isDeleteVertexArraysEvent = 0 ∧
    (itersFrom o 3 5 0 n).countP isCreateEvent = 0 ∧
    (itersFrom o 3 5 0 n).countP isDeleteEvent = 0 ∧
    (∀ i, i < n → Event.useProgram 3 ∈ iterTrace o 3 5 i ∧
      Event.bindVertexArray 5 ∈ iterTrace o 3 5 i) ∧
    teardownTrace =
      [Event.deleteVertexArrays 1 5, Event.deleteBuffers 1 4,
       Event.deleteProgram 3, Event.glfwTerminate] := by
  obtain ⟨h1, h2, h3, h4, h5, h6, h7, h8⟩ := preLoop_counts o
  obtain ⟨h9, h10⟩ := itersFrom_counts o 3 5 n 0
  exact ⟨mainRun_success o n fuel hw hg hx hf, h1, h2, h3, h4, h5, h6, h7, h8,
    h9, h10, fun i _ => iterTrace_uses o i, rfl⟩

/-- C4 amended witness: the all-success one-frame environment. -/
theorem spec_c4_amended_witness :
    mainRun oAllOk 1 =
      some (preLoopTrace oAllOk ++ itersFrom oAllOk 3 5 0 1 ++ teardownTrace, 0) ∧
    (preLoopTrace oAllOk).countP isCreateShaderEvent = 2 ∧
    (preLoopTrace oAllOk).countP isDeleteShaderEvent = 2 ∧
    (preLoopTrace oAllOk).countP isCreateProgramEvent = 1 ∧
    (preLoopTrace oAllOk).countP isDeleteProgramEvent = 0 ∧
    (preLoopTrace oAllOk).countP isGenBuffersEvent = 1 ∧
    (preLoopTrace oAllOk).countP isDeleteBuffersEvent = 0 ∧
    (preLoopTrace oAllOk).countP isGenVertexArraysEvent = 1 ∧
    (preLoopTrace oAllOk).countP isDeleteVertexArraysEvent = 0 ∧
    (itersFrom oAllOk 3 5 0 1).countP isCreateEvent = 0 ∧
    (itersFrom oAllOk 3 5 0 1).countP isDeleteEvent = 0 ∧
    (∀ i, i < 1 → Event.useProgram 3 ∈ iterTrace oAllOk 3 5 i ∧
      Event.bindVertexArray 5 ∈ iterTrace oAllOk 3 5 i) ∧
    teardownTrace =
      [Event.deleteVertexArrays 1 5, Event.deleteBuffers 1 4,
       Event.deleteProgram 3, Event.glfwTerminate] :=
  spec_c4_amended oAllOk 1 1 rfl rfl exitAt_oAllOk le_rfl

/-- C5: processInput requests a close exactly when the escape key is
    pressed and otherwise leaves the flag alone; the loop exits exactly
    when the close flag is set at the top of an iteration; and after the
    exit the three handle deletions and glfwTerminate follow. -/
theorem spec_c5 (o : Oracle) (n fuel : Nat)
    (hw : o.windowOk = true) (hg : o.gladOk = true)
    (hx : exitAt o n) (hf : n ≤ fuel) :
    (∀ esc flag,
      (Event.setWindowShouldClose true ∈ (processInput esc flag).1 ↔ esc = true) ∧
      (processInput esc flag).2 = (flag || esc)) ∧
    (∀ f i, runLoop o 3 5 (f + 1) i = some [] ↔ closeFlagAt o i = true) ∧
    mainRun o fuel =
      some (preLoopTrace o ++ itersFrom o 3 5 0 n ++ teardownTrace, 0) := by
  refine ⟨?_, ?_, mainRun_success o n fuel hw hg hx hf⟩
  · intro esc flag
    cases esc <;> simp [processInput]
  · intro f i
    constructor
    · intro h
      by_contra hflag
      rw [Bool.not_eq_true] at hflag
      rw [show runLoop o 3 5 (f + 1) i =
            (runLoop o 3 5 f (i + 1)).map (fun t => iterTrace o 3 5 i ++ t)
          from by simp [runLoop, hflag]] at h
      rw [Option.map_eq_some'] at h
      obtain ⟨t, _, ht⟩ := h
      exact iterTrace_ne_nil o 3 5 i (List.append_eq_nil.mp ht).1
    · intro h
      simp [runLoop, h]

/-- C5 witness: the all-success environment with escape from frame 0. -/
theorem spec_c5_witness :
    (∀ esc flag,
      (Event.setWindowShouldClose true ∈ (processInput esc flag).1 ↔ esc = true) ∧
      (processInput esc flag).2 = (flag || esc)) ∧
    (∀ f i, runLoop oAllOk 3 5 (f + 1) i = some [] ↔ closeFlagAt oAllOk i = true) ∧
    mainRun oAllOk 1 =
      some (preLoopTrace oAllOk ++ itersFrom oAllOk 3 5 0 1 ++ teardownTrace, 0) :=
  spec_c5 oAllOk 1 1 rfl rfl exitAt_oAllOk le_rfl

/-- C10: when the loop reaches iteration `i` with the flag unset and
    escape is pressed there, that iteration still performs the full body —
    the clear, draw, swap and poll all come after the close request — the
    flag is set at the top of iteration `i+1`, and the loop runs exactly
    `i+1` iterations: one full frame is rendered after the request. -/
theorem spec_c10 (o : Oracle) (i : Nat)
    (hflag : closeFlagAt o i = false) (hesc : o.escape i = true) :
    iterTrace o 3 5 i =
      [Event.getKey GLFW_KEY_ESCAPE,
       Event.setWindowShouldClose true,
       Event.clearColor 0.2 0.3 0.3 1.0,
       Event.glClear GL_COLOR_BUFFER_BIT,
       Event.useProgram 3,
       Event.bindVertexArray 5,
       Event.drawArrays GL_TRIANGLES 0 3,
       Event.swapBuffers,
       Event.pollEvents] ∧
    closeFlagAt o (i + 1) = true ∧
    ∀ fuel, i + 1 ≤ fuel →
      runLoop o 3 5 fuel 0 = some (itersFrom o 3 5 0 (i + 1)) := by
  refine ⟨by simp [iterTrace, processInput, hesc], by simp [closeFlagAt, hesc], ?_⟩
  intro fuel hfuel
  refine runLoop_seg o 3 5 (i + 1) 0 fuel ?_ ?_ hfuel
  · intro j _ hj
    exact closeFlagAt_false_of_le o (by omega) hflag
  · rw [Nat.zero_add]
    simp [closeFlagAt, hesc]

/-- C10 witness: escape pressed on the very first frame still renders
    that frame, and the loop stops after it. -/
theorem spec_c10_witness :
    iterTrace oAllOk 3 5 0 =
      [Event.getKey GLFW_KEY_ESCAPE,
       Event.setWindowShouldClose true,
       Event.clearColor 0.2 0.3 0.3 1.0,
       Event.glClear GL_COLOR_BUFFER_BIT,
       Event.useProgram 3,
       Event.bindVertexArray 5,
       Event.drawArrays GL_TRIANGLES 0 3,
       Event.swapBuffers,
       Event.pollEvents] ∧
    closeFlagAt oAllOk (0 + 1) = true ∧
    ∀ fuel, 0 + 1 ≤ fuel →
      runLoop oAllOk 3 5 fuel 0 = some (itersFrom oAllOk 3 5 0 (0 + 1)) :=
  spec_c10 oAllOk 0 rfl rfl

/-- C2: if window creation fails or GLAD loading fails, main prints a
    diagnostic line, returns the nonzero code -1, and never reaches shader
    setup (no glCompileShader call) or the render loop (no glDrawArrays
    call). -/
theorem spec_c2 (o : Oracle) (fuel : Nat)
    (h : o.windowOk = false ∨ o.gladOk = false) :
    ∃ tr, mainRun o fuel = some (tr, -1) ∧
      (Event.printLine "Failed to create GLFW window" ∈ tr ∨
       Event.printLine "Failed to initialize GLAD" ∈ tr) ∧
      tr.countP isCompileEvent = 0 ∧ tr.countP isDrawEvent = 0 := by
  cases hw : o.windowOk with
  | false =>
    refine ⟨winFailTrace, by simp [mainRun, hw], ?_, ?_, ?_⟩
    · left
      simp [winFailTrace, bootTrace]
    · rfl
    · rfl
  | true =>
    have hg : o.gladOk = false := by
      rcases h with h | h
      · rw [hw] at h
        cases h
      · exact h
    refine ⟨gladFailTrace, by simp [mainRun, hw, hg], ?_, ?_, ?_⟩
    · right
      simp [gladFailTrace, bootTrace]
    · rfl
    · rfl

/-- C2 witness: the window-creation-failure environment exercises the
    theorem at a concrete input. -/
theorem spec_c2_witness :
    ∃ tr, mainRun oWinFail 0 = some (tr, -1) ∧
      (Event.printLine "Failed to create GLFW window" ∈ tr ∨
       Event.printLine "Failed to initialize GLAD" ∈ tr) ∧
      tr.countP isCompileEvent = 0 ∧ tr.countP isDrawEvent = 0 :=
  spec_c2 oWinFail 0 (Or.inl rfl)

/-- C6: whenever main returns, the first five calls of its trace are
    glfwInit, the context-version hints 3 and 3, the core-profile hint,
    and glfwCreateWindow with width 800, height 600. -/
theorem spec_c6 (o : Oracle) (fuel : Nat) (tr : List Event) (c : Int)
    (h : mainRun o fuel = some (tr, c)) :
    tr.take 5 =
      [Event.glfwInit,
       Event.windowHint GLFW_CONTEXT_VERSION_MAJOR 3,
       Event.windowHint GLFW_CONTEXT_VERSION_MINOR 3,
       Event.windowHint GLFW_OPENGL_PROFILE GLFW_OPENGL_CORE_PROFILE,
       Event.createWindow 800 600 "LearnOpenGL"] := by
  obtain ⟨rest, rfl⟩ := mainRun_boot_prefix o fuel tr c h
  rw [show (5 : Nat) = bootTrace.length from rfl, List.take_left]
  rfl

/-- C6 witness: the theorem applied to the window-creation-failure run. -/
theorem spec_c6_witness :
    winFailTrace.take 5 =
      [Event.glfwInit,
       Event.windowHint GLFW_CONTEXT_VERSION_MAJOR 3,
       Event.windowHint GLFW_CONTEXT_VERSION_MINOR 3,
       Event.windowHint GLFW_OPENGL_PROFILE GLFW_OPENGL_CORE_PROFILE,
       Event.createWindow 800 600 "LearnOpenGL"] :=
  spec_c6 oWinFail 0 _ (-1) rfl

/-- C7: the resize callback forwards exactly the delivered width and
    height to glViewport with origin (0, 0), and performs nothing else. -/
theorem spec_c7 (width height : Int) :
    framebuffer_size_callback width height = [Event.viewport 0 0 width height] :=
  rfl

/-- C8: on GLAD-loading failure main returns -1 without ever calling
    glfwTerminate, while on window-creation failure it calls glfwTerminate
    before returning -1. -/
theorem spec_c8 (o : Oracle) (fuel : Nat) :
    (o.windowOk = false →
      ∃ tr, mainRun o fuel = some (tr, -1) ∧ Event.glfwTerminate ∈ tr) ∧
    (o.windowOk = true → o.gladOk = false →
      ∃ tr, mainRun o fuel = some (tr, -1) ∧ Event.glfwTerminate ∉ tr) := by
  constructor
  · intro hw
    exact ⟨winFailTrace, by simp [mainRun, hw], by simp [winFailTrace, bootTrace]⟩
  · intro hw hg
    exact ⟨gladFailTrace, by simp [mainRun, hw, hg], by decide⟩

/-- C8 witness: both abort paths exercised at concrete environments. -/
theorem spec_c8_witness :
    (∃ tr, mainRun oWinFail 0 = some (tr, -1) ∧ Event.glfwTerminate ∈ tr) ∧
    (∃ tr, mainRun oGladFail 0 = some (tr, -1) ∧ Event.glfwTerminate ∉ tr) :=
  ⟨(spec_c8 oWinFail 0).1 rfl, (spec_c8 oGladFail 0).2 rfl rfl⟩

/-- The close-flag evolution does not depend on the result of glfwInit. -/
lemma closeFlagAt_update (o : Oracle) (b : Bool) (i : Nat) :
    closeFlagAt { o with glfwInitOk := b } i = closeFlagAt o i := by
  induction i with
  | zero => rfl
  | succ i ih => simp [closeFlagAt, ih]

/-- A loop iteration does not depend on the result of glfwInit. -/
lemma iterTrace_update (o : Oracle) (b : Bool) (prog vao i : Nat) :
    iterTrace { o with glfwInitOk := b } prog vao i = iterTrace o prog vao i := by
  simp [iterTrace, closeFlagAt_update]

/-- The render loop does not depend on the result of glfwInit. -/
lemma runLoop_update (o : Oracle) (b : Bool) (prog vao : Nat) :
    ∀ fuel i, runLoop { o with glfwInitOk := b } prog vao fuel i =
      runLoop o prog vao fuel i := by
  intro fuel
  induction fuel with
  | zero => intro i; simp [runLoop, closeFlagAt_update]
  | succ fuel ih => intro i; simp [runLoop, closeFlagAt_update, iterTrace_update, ih]

/-- C9: main never inspects the return value of glfwInit — the whole run
    is identical whatever that call returns — and on every completed run
    the window hints are configured and glfwCreateWindow is called (the
    five boot calls head the trace). -/
theorem spec_c9 (o : Oracle) (b : Bool) (fuel : Nat) :
    mainRun { o with glfwInitOk := b } fuel = mainRun o fuel ∧
    (∀ tr c, mainRun o fuel = some (tr, c) → tr.take 5 = bootTrace) := by
  constructor
  · unfold mainRun
    simp only [runLoop_update]
    rfl
  · intro tr c h
    obtain ⟨rest, rfl⟩ := mainRun_boot_prefix o fuel tr c h
    rw [show (5 : Nat) = bootTrace.length from rfl, List.take_left]

/-- C9 witness: the theorem exercised on the all-success environment. -/
theorem spec_c9_witness :
    mainRun { oAllOk with glfwInitOk := false } 1 = mainRun oAllOk 1 ∧
    (∀ tr c, mainRun oAllOk 1 = some (tr, c) → tr.take 5 = bootTrace) :=
  spec_c9 oAllOk false 1

end GLTriangle
